import Mathlib

/-!
Shallow embedding of the metrics core of the Chowkidar server-monitoring
agent (Go), covering the TTL read-through metrics cache, the network rate
calculation, the history collector with its ring buffers and window
queries, the WebSocket hub fan-out, and the dashboard composite handler.

Modelling conventions:
* Go `float64` values that are only stored, copied and compared (or divided
  once, for rates) are carried as exact rationals `ℚ`.
* Go `uint64` counters are `ℕ` with arithmetic taken modulo `2^64`
  (`u64add`, `u64sub`), reproducing Go's wrapping semantics.
* `time.Time` values are rationals (seconds); `time.Since t` at instant
  `now` is `now - t`, and the Go zero `time.Time` (`IsZero`) is the
  sentinel `0`.
* A Go `(*T, error)` provider result is `Except String T`; a nil pointer
  accompanying an error is the `Except.error` branch.
* Stateful functions take the receiver state and the instant `now` (and,
  where the Go code performs a provider call, the provider's would-be
  answer) and return the result together with the updated state.
-/

namespace Chowkidar

/-- Modulus of Go `uint64` arithmetic. -/
def U64 : ℕ := 2 ^ 64

/-- Go `uint64` addition: wraps modulo `2^64`. -/
def u64add (a b : ℕ) : ℕ := (a + b) % U64

/-- Go `uint64` subtraction: wraps modulo `2^64` (never negative). -/
def u64sub (a b : ℕ) : ℕ := (a % U64 + U64 - b % U64) % U64

/-- `internal/models/cpu.go`: `CPUStatus`. -/
structure CPUStatus where
  UsagePercent : ℚ
  PerCore : List ℚ
  CoreCount : ℤ
  deriving Repr, DecidableEq

/-- `internal/models` (used by `GetMemoryUsage` in `metrics.service.go`): `MemoryStatus`. -/
structure MemoryStatus where
  TotalGB : ℚ
  UsedGB : ℚ
  AvailableGB : ℚ
  UsagePercent : ℚ
  deriving Repr, DecidableEq

/-- `internal/models/directory.go` (unnamed part): `DiskStatus`. -/
structure DiskStatus where
  Path : String
  TotalGB : ℚ
  UsedGB : ℚ
  FreeGB : ℚ
  UsagePercent : ℚ
  Filesystem : String
  deriving Repr, DecidableEq

/-- `internal/models/network.go`: `NetworkStatus` (per-interface counters). -/
structure NetworkStatus where
  Interface : String
  BytesSent : ℕ
  BytesRecv : ℕ
  PacketsSent : ℕ
  PacketsRecv : ℕ
  ErrorsIn : ℕ
  ErrorsOut : ℕ
  DropsIn : ℕ
  DropsOut : ℕ
  BytesSentGB : ℚ
  BytesRecvGB : ℚ
  deriving Repr, DecidableEq

/-- `internal/models/directory.go`: `DirectoryInfo`. -/
structure DirectoryInfo where
  Path : String
  SizeGB : ℚ
  Size : String
  deriving Repr, DecidableEq

/-- `internal/models/process.go`: `ProcessStatus`. -/
structure ProcessStatus where
  PID : ℤ
  Name : String
  CPUPercent : ℚ
  MemPercent : ℚ
  Status : String
  deriving Repr, DecidableEq

/-- Cache service (`cache.service.go`): the `lastNetworkBytes` anonymous
struct inside `MetricsCache` — the rate calculator's last observed
cumulative counters and their timestamp. -/
structure LastNetworkBytes where
  sent : ℕ
  recv : ℕ
  time : ℚ
  deriving Repr, DecidableEq

/-- Cache service: `MetricsCache` — per-kind cached snapshot and capture
time, the rate-calculator baseline, and the TTLs. A `none` entry is the
Go nil pointer / nil slice. -/
structure MetricsCache where
  cpuCache : Option CPUStatus
  cpuCacheTime : ℚ
  memoryCache : Option MemoryStatus
  memoryCacheTime : ℚ
  diskCache : Option DiskStatus
  diskCacheTime : ℚ
  networkCache : Option (List NetworkStatus)
  networkCacheTime : ℚ
  lastNetworkBytes : LastNetworkBytes
  directoriesCache : Option (List DirectoryInfo)
  directoriesCacheTime : ℚ
  directoriesCacheTTL : ℚ
  ttl : ℚ
  deriving Repr, DecidableEq

/-- Cache service: `SetCacheTTL`. -/
def SetCacheTTL (s : MetricsCache) (duration : ℚ) : MetricsCache :=
  { s with ttl := duration }

/-- Cache service: `isCacheValid` — `time.Since(cacheTime) < mc.ttl`,
with `time.Since(cacheTime)` at instant `now` being `now - cacheTime`. -/
def MetricsCache.isCacheValid (mc : MetricsCache) (now cacheTime : ℚ) : Bool :=
  decide (now - cacheTime < mc.ttl)

/-- Result of a read-through cache getter: the returned `(value, error)`
pair, the cache state afterwards, and how many provider calls were made. -/
structure CacheFetch (α : Type) where
  result : Except String α
  cache : MetricsCache
  providerCalls : ℕ
  deriving Repr

/-- Cache service: `GetCachedCPU`. On a valid (fresh and non-nil) entry it
returns the cached snapshot with no provider call; otherwise it consults
the provider (`GetCPUUsage`, whose would-be answer is the `provider`
argument), propagating an error without caching, and on success storing
the snapshot with the current timestamp. -/
def GetCachedCPU (s : MetricsCache) (now : ℚ) (provider : Except String CPUStatus) :
    CacheFetch CPUStatus :=
  match s.cpuCache, s.isCacheValid now s.cpuCacheTime with
  | some c, true => ⟨Except.ok c, s, 0⟩
  | _, _ =>
    match provider with
    | Except.error e => ⟨Except.error e, s, 1⟩
    | Except.ok cpu =>
        ⟨Except.ok cpu, { s with cpuCache := some cpu, cpuCacheTime := now }, 1⟩

/-- Cache service: `GetCachedMemory` (same shape as `GetCachedCPU`). -/
def GetCachedMemory (s : MetricsCache) (now : ℚ) (provider : Except String MemoryStatus) :
    CacheFetch MemoryStatus :=
  match s.memoryCache, s.isCacheValid now s.memoryCacheTime with
  | some m, true => ⟨Except.ok m, s, 0⟩
  | _, _ =>
    match provider with
    | Except.error e => ⟨Except.error e, s, 1⟩
    | Except.ok memory =>
        ⟨Except.ok memory, { s with memoryCache := some memory, memoryCacheTime := now }, 1⟩

/-- Cache service: `GetCachedDisk` (same shape as `GetCachedCPU`). -/
def GetCachedDisk (s : MetricsCache) (now : ℚ) (provider : Except String DiskStatus) :
    CacheFetch DiskStatus :=
  match s.diskCache, s.isCacheValid now s.diskCacheTime with
  | some d, true => ⟨Except.ok d, s, 0⟩
  | _, _ =>
    match provider with
    | Except.error e => ⟨Except.error e, s, 1⟩
    | Except.ok disk =>
        ⟨Except.ok disk, { s with diskCache := some disk, diskCacheTime := now }, 1⟩

/-- Cache service: `GetCachedNetwork`. The cached value is a slice;
`none` is the Go nil slice (the `networkCache != nil` check). A refresh
stores only `networkCache` and `networkCacheTime`. -/
def GetCachedNetwork (s : MetricsCache) (now : ℚ)
    (provider : Except String (List NetworkStatus)) :
    CacheFetch (List NetworkStatus) :=
  match s.networkCache, s.isCacheValid now s.networkCacheTime with
  | some n, true => ⟨Except.ok n, s, 0⟩
  | _, _ =>
    match provider with
    | Except.error e => ⟨Except.error e, s, 1⟩
    | Except.ok network =>
        ⟨Except.ok network, { s with networkCache := some network, networkCacheTime := now }, 1⟩

/-- Result of `GetNetworkRates`: the two rates (bytes/sec) and the cache
state afterwards. -/
structure NetworkRatesResult where
  sentRate : ℚ
  recvRate : ℚ
  cache : MetricsCache
  deriving Repr

/-- Cache service: `GetNetworkRates`. Totals are summed in `uint64`; the
deltas `totalSent - last.sent` and `totalRecv - last.recv` are Go `uint64`
subtractions (wrapping, hence never negative) before the conversion to a
rate, exactly as in the source; the final `< 0` clamps are kept verbatim.
The first observation (zero `lastNetworkBytes.time`) records a baseline
and returns `(0, 0)`. -/
def GetNetworkRates (s : MetricsCache) (now : ℚ) : NetworkRatesResult :=
  match s.networkCache with
  | none => ⟨0, 0, s⟩
  | some ifaces =>
    if ifaces.length = 0 then ⟨0, 0, s⟩
    else
      let totalSent := ifaces.foldl (fun acc i => u64add acc i.BytesSent) 0
      let totalRecv := ifaces.foldl (fun acc i => u64add acc i.BytesRecv) 0
      if s.lastNetworkBytes.time = 0 then
        ⟨0, 0, { s with lastNetworkBytes := ⟨totalSent, totalRecv, now⟩ }⟩
      else
        let timeDelta : ℚ :=
          if now - s.lastNetworkBytes.time ≤ 0 then 1 else now - s.lastNetworkBytes.time
        let sentRate0 : ℚ := (u64sub totalSent s.lastNetworkBytes.sent : ℚ) / timeDelta
        let recvRate0 : ℚ := (u64sub totalRecv s.lastNetworkBytes.recv : ℚ) / timeDelta
        let s1 := { s with lastNetworkBytes := ⟨totalSent, totalRecv, now⟩ }
        ⟨if sentRate0 < 0 then 0 else sentRate0,
         if recvRate0 < 0 then 0 else recvRate0, s1⟩

/-- `internal/models/system.go` (unnamed part): `CPUHistory`. -/
structure CPUHistory where
  Timestamp : ℚ
  Usage : ℚ
  PerCore : List ℚ
  deriving Repr, DecidableEq

/-- `internal/models`: `MemoryHistory`. -/
structure MemoryHistory where
  Timestamp : ℚ
  UsedGB : ℚ
  AvailableGB : ℚ
  UsagePercent : ℚ
  deriving Repr, DecidableEq

/-- `internal/models`: `DiskHistory`. -/
structure DiskHistory where
  Timestamp : ℚ
  UsedGB : ℚ
  TotalGB : ℚ
  UsagePercent : ℚ
  deriving Repr, DecidableEq

/-- `internal/models`: `NetworkHistory`. -/
structure NetworkHistory where
  Timestamp : ℚ
  BytesSent : ℕ
  BytesRecv : ℕ
  BytesSentRate : ℚ
  BytesRecvRate : ℚ
  deriving Repr, DecidableEq

/-- `internal/models`: `HistoricalDataWindow`. -/
structure HistoricalDataWindow where
  CPU : List CPUHistory
  Memory : List MemoryHistory
  Disk : List DiskHistory
  Network : List NetworkHistory
  deriving Repr, DecidableEq

/-- `internal/services/history.service.go` lines 11-22: `HistoryCollector`. -/
structure HistoryCollector where
  cpuHistory : List CPUHistory
  memoryHistory : List MemoryHistory
  diskHistory : List DiskHistory
  networkHistory : List NetworkHistory
  lastNetworkSent : ℕ
  lastNetworkRecv : ℕ
  lastTime : ℚ
  maxDataPoints : ℕ
  running : Bool
  deriving Repr, DecidableEq

/-- `history.service.go` lines 24-32: the package-level `historyCollector`
initial value (empty buffers, `maxDataPoints = 60`, `lastTime = time.Now()`
at start-up instant `now`, not running). -/
def historyCollectorInit (now : ℚ) : HistoryCollector :=
  { cpuHistory := [], memoryHistory := [], diskHistory := [], networkHistory := [],
    lastNetworkSent := 0, lastNetworkRecv := 0, lastTime := now,
    maxDataPoints := 60, running := false }

/-- The append-then-evict step used for every history buffer
(`history.service.go` lines 82-89, 94-102, 107-115, 137-151): append the
new sample at the tail, then, if the length now exceeds `max`, drop one
sample from the front (`hc.xHistory = hc.xHistory[1:]`). -/
def appendBounded {α : Type} (l : List α) (x : α) (max : ℕ) : List α :=
  if (l ++ [x]).length > max then (l ++ [x]).drop 1 else l ++ [x]

/-- `history.service.go` lines 35-54: `StartHistoryCollector`. Returns the
new state and whether a new collection goroutine was spawned (`false` when
already running: idempotent start). -/
def StartHistoryCollector (hc : HistoryCollector) : HistoryCollector × Bool :=
  if hc.running then (hc, false) else ({ hc with running := true }, true)

/-- `history.service.go` lines 57-62: `StopHistoryCollector` — sets the
`running` flag to false (and nothing else). -/
def StopHistoryCollector (hc : HistoryCollector) : HistoryCollector :=
  { hc with running := false }

/-- `history.service.go` lines 66-153: `collectSnapshot`. The four provider
answers (`GetCPUUsage`, `GetMemoryUsage`, `GetDiskUsage("/")`,
`GetNetworkUsage`) are arguments; a per-kind error skips only that kind's
append. The network branch also requires a non-empty interface list, sums
the counters in `uint64`, computes rates from the previous totals with the
`timeDiff > 0 && lastNetworkSent > 0` guard (a Go `uint64` wrapping
subtraction feeds the rate), and advances `lastNetworkSent/Recv/lastTime`. -/
def collectSnapshot (hc : HistoryCollector) (now : ℚ)
    (cpu : Except String CPUStatus) (memory : Except String MemoryStatus)
    (disk : Except String DiskStatus) (network : Except String (List NetworkStatus)) :
    HistoryCollector :=
  let hc1 :=
    match cpu with
    | Except.error _ => hc
    | Except.ok c =>
        { hc with cpuHistory :=
            appendBounded hc.cpuHistory ⟨now, c.UsagePercent, c.PerCore⟩ hc.maxDataPoints }
  let hc2 :=
    match memory with
    | Except.error _ => hc1
    | Except.ok m =>
        { hc1 with memoryHistory :=
            (appendBounded hc1.memoryHistory ⟨now, m.UsedGB, m.AvailableGB, m.UsagePercent⟩
              hc1.maxDataPoints) }
  let hc3 :=
    match disk with
    | Except.error _ => hc2
    | Except.ok d =>
        { hc2 with diskHistory :=
            (appendBounded hc2.diskHistory ⟨now, d.UsedGB, d.TotalGB, d.UsagePercent⟩
              hc2.maxDataPoints) }
  match network with
  | Except.error _ => hc3
  | Except.ok ifaces =>
    if ifaces.length > 0 then
      let totalSent := ifaces.foldl (fun acc i => u64add acc i.BytesSent) 0
      let totalRecv := ifaces.foldl (fun acc i => u64add acc i.BytesRecv) 0
      let timeDiff := now - hc3.lastTime
      let bytesSentRate : ℚ :=
        if timeDiff > 0 ∧ hc3.lastNetworkSent > 0 then
          (u64sub totalSent hc3.lastNetworkSent : ℚ) / timeDiff
        else 0
      let bytesRecvRate : ℚ :=
        if timeDiff > 0 ∧ hc3.lastNetworkSent > 0 then
          (u64sub totalRecv hc3.lastNetworkRecv : ℚ) / timeDiff
        else 0
      { hc3 with
          networkHistory :=
            (appendBounded hc3.networkHistory
              ⟨now, totalSent, totalRecv, bytesSentRate, bytesRecvRate⟩ hc3.maxDataPoints),
          lastNetworkSent := totalSent,
          lastNetworkRecv := totalRecv,
          lastTime := now }
    else hc3

/-- `history.service.go` lines 44-51: the body of one iteration of the
collection goroutine's loop (`for range ticker.C { historyCollector.collectSnapshot() }`).
The loop consults only the ticker channel; it does not read the `running`
flag, so a tick unconditionally runs `collectSnapshot`. -/
def historyLoopTick (hc : HistoryCollector) (now : ℚ)
    (cpu : Except String CPUStatus) (memory : Except String MemoryStatus)
    (disk : Except String DiskStatus) (network : Except String (List NetworkStatus)) :
    HistoryCollector :=
  collectSnapshot hc now cpu memory disk network

/-- The per-kind payload returned by `GetHistoricalData` (the Go function
returns `interface{}`: one of the four slice types, or nil). -/
inductive HistoricalData : Type
  | cpu (l : List CPUHistory)
  | memory (l : List MemoryHistory)
  | disk (l : List DiskHistory)
  | network (l : List NetworkHistory)
  deriving Repr, DecidableEq

/-- `history.service.go` lines 158-204: `GetHistoricalData`. For a known
metric it filters the buffer to entries with `h.Timestamp.After(cutoffTime)`
— strictly later than `now - duration` — keeping buffer order; an unknown
metric returns `none` (Go nil). -/
def GetHistoricalData (hc : HistoryCollector) (metric : String) (duration : ℚ) (now : ℚ) :
    Option HistoricalData :=
  let cutoffTime := now - duration
  match metric with
  | "cpu" =>
      some (HistoricalData.cpu (hc.cpuHistory.filter fun h => decide (h.Timestamp > cutoffTime)))
  | "memory" =>
      some (HistoricalData.memory
        (hc.memoryHistory.filter fun h => decide (h.Timestamp > cutoffTime)))
  | "disk" =>
      some (HistoricalData.disk
        (hc.diskHistory.filter fun h => decide (h.Timestamp > cutoffTime)))
  | "network" =>
      some (HistoricalData.network
        (hc.networkHistory.filter fun h => decide (h.Timestamp > cutoffTime)))
  | _ => none

/-- `history.service.go` lines 207-240: `GetAllHistoricalData`. -/
def GetAllHistoricalData (hc : HistoryCollector) (duration : ℚ) (now : ℚ) :
    HistoricalDataWindow :=
  let cutoffTime := now - duration
  { CPU := hc.cpuHistory.filter fun h => decide (h.Timestamp > cutoffTime),
    Memory := hc.memoryHistory.filter fun h => decide (h.Timestamp > cutoffTime),
    Disk := hc.diskHistory.filter fun h => decide (h.Timestamp > cutoffTime),
    Network := hc.networkHistory.filter fun h => decide (h.Timestamp > cutoffTime) }

/-- The HTTP outcome of `GetMetricHistory`
(`internal/controllers/processes.controller.go` lines 353-375): either a
400 with an error string or a 200 carrying the metric name, the duration
string and the filtered data. -/
inductive HistoryResponse : Type
  | badRequest (msg : String)
  | ok (metric : String) (durationStr : String) (data : HistoricalData)
  deriving Repr, DecidableEq

/-- `processes.controller.go` lines 353-375: `GetMetricHistory`. The
`parsedDuration` argument is the outcome of `time.ParseDuration` on the
query string (`none` on a parse error). A nil result from the service
(unknown metric) becomes a 400 "invalid metric"; a valid metric with no
data in the window is a 200 with an empty list. -/
def GetMetricHistory (hc : HistoryCollector) (metric : String) (durationStr : String)
    (parsedDuration : Option ℚ) (now : ℚ) : HistoryResponse :=
  match parsedDuration with
  | none => HistoryResponse.badRequest "invalid duration format"
  | some duration =>
    match GetHistoricalData hc metric duration now with
    | none => HistoryResponse.badRequest "invalid metric"
    | some data => HistoryResponse.ok metric durationStr data

/-- `internal/services/websocket.service.go` lines 13-20: `WebSocketMessage`.
The `Data` payload is carried opaquely as a string (the Go field is
`interface{}` serialized to JSON). -/
structure WebSocketMessage where
  msgType : String
  timestamp : ℚ
  data : String
  error : String
  token : String
  deriving Repr, DecidableEq

/-- `websocket.service.go` lines 32-38: `ClientConnection`. `send` holds the
contents of the buffered `Send` channel; `sendCapacity` is the capacity the
channel was created with (`make(chan WebSocketMessage, 256)` in
`HandleWebSocket`). -/
structure ClientConnection where
  id : String
  send : List WebSocketMessage
  sendCapacity : ℕ
  deriving Repr, DecidableEq

/-- `processes.controller.go` lines 116-123: the client built by
`HandleWebSocket` — empty outbound queue with capacity 256. -/
def newClientConnection (clientID : String) : ClientConnection :=
  { id := clientID, send := [], sendCapacity := 256 }

/-- `websocket.service.go` lines 95-104: the broadcast case of the hub's
`run` loop. For each registered client, a non-blocking channel send
(`select` with a `default` branch): if the client's queue has free space
the message is enqueued, otherwise it is dropped for that client only.
The Go code ranges over the client map; the clients are given here as a
list, each handled independently. -/
def broadcastFanout (clients : List ClientConnection) (msg : WebSocketMessage) :
    List ClientConnection :=
  match clients with
  | [] => []
  | c :: rest =>
      (if c.send.length < c.sendCapacity then { c with send := c.send ++ [msg] } else c) ::
        broadcastFanout rest msg

/-- `websocket.service.go` lines 41-49: `WebSocketHub` — the client
registry, modelled as an association list keyed by client ID (the Go
`map[string]*ClientConnection`). -/
structure WebSocketHub where
  clients : List (String × ClientConnection)
  deriving Repr, DecidableEq

/-- Replacement of one client's state in the hub's registry (the effect of
a successful channel send on `hub.clients[clientID]`). -/
def WebSocketHub.setClient (h : WebSocketHub) (clientID : String) (c : ClientConnection) :
    WebSocketHub :=
  { clients := h.clients.map fun p => if p.1 = clientID then (p.1, c) else p }

/-- `websocket.service.go` lines 195-215: `SendMessage`. The `hub` argument
is the package-level `wsHub` (possibly nil before `InitWebSocketHub`).
Returns the Go `error` result (`none` = nil) together with the hub state
afterwards. Every branch — nil hub, unknown client, full queue (message
dropped) and successful enqueue — returns a nil error. -/
def SendMessage (hub : Option WebSocketHub) (clientID : String) (msg : WebSocketMessage) :
    Option String × Option WebSocketHub :=
  match hub with
  | none => (none, none)
  | some h =>
    match h.clients.lookup clientID with
    | none => (none, some h)
    | some client =>
      if client.send.length < client.sendCapacity then
        (none, some (h.setClient clientID { client with send := client.send ++ [msg] }))
      else
        (none, some h)

/-- The dashboard payload built by `GetDashboard`
(`processes.controller.go` lines 397-471), with the nested `gin.H` maps
flattened into named fields. -/
structure DashboardPayload where
  cpuUsagePercent : ℚ
  cpuCoreCount : ℤ
  memoryUsedGB : ℚ
  memoryAvailableGB : ℚ
  memoryUsagePercent : ℚ
  diskUsedGB : ℚ
  diskTotalGB : ℚ
  diskUsagePercent : ℚ
  networkBytesSent : ℕ
  networkBytesRecv : ℕ
  networkBytesSentRate : ℚ
  networkBytesRecvRate : ℚ
  topProcesses : List ProcessStatus
  processTotalCPU : ℚ
  processTotalMem : ℚ
  diskPartitions : List DiskStatus
  topDirectories : List DirectoryInfo
  history : HistoricalDataWindow
  timestamp : ℚ
  deriving Repr, DecidableEq

/-- `processes.controller.go` lines 397-471: `GetDashboard`. The arguments
are the results of the service calls the handler makes, with each fetch
error already discarded exactly as the handler does (`cpuCurrent, _ := ...`):
a failed CPU/memory/disk fetch leaves a nil pointer (`none`), and a failed
network/disk-list/directory fetch leaves a nil slice (`[]`). Building the
response dereferences `cpuCurrent`, `memoryCurrent` and `diskCurrent`
unconditionally; with any of them nil the handler panics and produces no
response, modelled as `none`. -/
def GetDashboard (cpuCurrent : Option CPUStatus) (memoryCurrent : Option MemoryStatus)
    (diskCurrent : Option DiskStatus) (networkCurrent : List NetworkStatus)
    (processesCurrent : List ProcessStatus) (totalCPU totalMem : ℚ)
    (window : HistoricalDataWindow) (sentRate recvRate : ℚ)
    (allDisks : List DiskStatus) (topDirs : List DirectoryInfo) (now : ℚ) :
    Option DashboardPayload :=
  let topProcesses :=
    if processesCurrent.length > 5 then processesCurrent.take 5 else processesCurrent
  let totalNetworkSent :=
    if networkCurrent.length > 0 then
      networkCurrent.foldl (fun acc i => u64add acc i.BytesSent) 0
    else 0
  let totalNetworkRecv :=
    if networkCurrent.length > 0 then
      networkCurrent.foldl (fun acc i => u64add acc i.BytesRecv) 0
    else 0
  match cpuCurrent, memoryCurrent, diskCurrent with
  | some cpu, some memory, some disk =>
      some
        { cpuUsagePercent := cpu.UsagePercent, cpuCoreCount := cpu.CoreCount,
          memoryUsedGB := memory.UsedGB, memoryAvailableGB := memory.AvailableGB,
          memoryUsagePercent := memory.UsagePercent,
          diskUsedGB := disk.UsedGB, diskTotalGB := disk.TotalGB,
          diskUsagePercent := disk.UsagePercent,
          networkBytesSent := totalNetworkSent, networkBytesRecv := totalNetworkRecv,
          networkBytesSentRate := sentRate, networkBytesRecvRate := recvRate,
          topProcesses := topProcesses,
          processTotalCPU := totalCPU, processTotalMem := totalMem,
          diskPartitions := allDisks, topDirectories := topDirs,
          history := window, timestamp := now }
  | _, _, _ => none

/-- C10: `SendMessage` never reports failure — for every hub state (including
an uninitialized hub), every client ID (including unregistered ones) and
every message (including one dropped on a full queue), the returned Go
error is nil. -/
theorem send_message_never_errors (hub : Option WebSocketHub) (clientID : String)
    (msg : WebSocketMessage) : (SendMessage hub clientID msg).1 = none := by
  unfold SendMessage
  cases hub with
  | none => rfl
  | some h =>
    cases hq : h.clients.lookup clientID with
    | none => simp [hq]
    | some client =>
      simp only [hq]
      split <;> rfl

/-- C2 (code bug evaluation): `StopHistoryCollector` only clears the
`running` flag; the collection goroutine's loop never reads that flag, so
on the very next tick after a stop `collectSnapshot` still appends one
sample to every buffer. Evaluated at the freshly started collector, a
stop, and one subsequent tick with successful provider readings. -/
theorem stop_history_collector_ineffective :
    (StopHistoryCollector (StartHistoryCollector (historyCollectorInit 0)).1).running = false ∧
    (historyLoopTick (StopHistoryCollector (StartHistoryCollector (historyCollectorInit 0)).1) 1
        (Except.ok ⟨25, [10, 40], 2⟩) (Except.ok ⟨16, 8, 8, 50⟩)
        (Except.ok ⟨"/", 100, 40, 60, 40, "ext4"⟩)
        (Except.ok [⟨"eth0", 1000, 2000, 10, 20, 0, 0, 0, 0, 0, 0⟩])).cpuHistory.length = 1 ∧
    (historyLoopTick (StopHistoryCollector (StartHistoryCollector (historyCollectorInit 0)).1) 1
        (Except.ok ⟨25, [10, 40], 2⟩) (Except.ok ⟨16, 8, 8, 50⟩)
        (Except.ok ⟨"/", 100, 40, 60, 40, "ext4"⟩)
        (Except.ok [⟨"eth0", 1000, 2000, 10, 20, 0, 0, 0, 0, 0, 0⟩])).memoryHistory.length = 1 ∧
    (historyLoopTick (StopHistoryCollector (StartHistoryCollector (historyCollectorInit 0)).1) 1
        (Except.ok ⟨25, [10, 40], 2⟩) (Except.ok ⟨16, 8, 8, 50⟩)
        (Except.ok ⟨"/", 100, 40, 60, 40, "ext4"⟩)
        (Except.ok [⟨"eth0", 1000, 2000, 10, 20, 0, 0, 0, 0, 0, 0⟩])).diskHistory.length = 1 ∧
    (historyLoopTick (StopHistoryCollector (StartHistoryCollector (historyCollectorInit 0)).1) 1
        (Except.ok ⟨25, [10, 40], 2⟩) (Except.ok ⟨16, 8, 8, 50⟩)
        (Except.ok ⟨"/", 100, 40, 60, 40, "ext4"⟩)
        (Except.ok [⟨"eth0", 1000, 2000, 10, 20, 0, 0, 0, 0, 0, 0⟩])).networkHistory.length = 1 := by
  refine ⟨rfl, ?_, ?_, ?_, ?_⟩ <;> rfl

/-- C3 (code bug evaluation): on a counter reset the computed network rate
is not clamped to 0 — the Go `uint64` subtraction wraps, so the rate is
`(2^64 - Δ) / Δt`, an enormous positive value. Evaluated for
`GetNetworkRates` (previous totals 1000/1000 at t=10, fresh totals 500/600
at t=11) and for `collectSnapshot`'s rate computation at the same reset. -/
theorem counter_reset_rate_inflation :
    (GetNetworkRates
        { cpuCache := none, cpuCacheTime := 0, memoryCache := none, memoryCacheTime := 0,
          diskCache := none, diskCacheTime := 0,
          networkCache := some [⟨"eth0", 500, 600, 0, 0, 0, 0, 0, 0, 0, 0⟩],
          networkCacheTime := 11, lastNetworkBytes := ⟨1000, 1000, 10⟩,
          directoriesCache := none, directoriesCacheTime := 0, directoriesCacheTTL := 30,
          ttl := 1 } 11).sentRate = (2 : ℚ) ^ 64 - 500 ∧
    (GetNetworkRates
        { cpuCache := none, cpuCacheTime := 0, memoryCache := none, memoryCacheTime := 0,
          diskCache := none, diskCacheTime := 0,
          networkCache := some [⟨"eth0", 500, 600, 0, 0, 0, 0, 0, 0, 0, 0⟩],
          networkCacheTime := 11, lastNetworkBytes := ⟨1000, 1000, 10⟩,
          directoriesCache := none, directoriesCacheTime := 0, directoriesCacheTTL := 30,
          ttl := 1 } 11).recvRate = (2 : ℚ) ^ 64 - 400 ∧
    ((2 : ℚ) ^ 64 - 500 ≠ 0) ∧
    ((collectSnapshot
        { historyCollectorInit 0 with
            lastNetworkSent := 1000, lastNetworkRecv := 1000, lastTime := 10 } 11
        (Except.error "e") (Except.error "e") (Except.error "e")
        (Except.ok [⟨"eth0", 500, 600, 0, 0, 0, 0, 0, 0, 0, 0⟩])).networkHistory.map
      (fun h => h.BytesSentRate) = [(2 : ℚ) ^ 64 - 500]) := by
  refine ⟨?_, ?_, by norm_num, ?_⟩
  · simp only [GetNetworkRates]
    norm_num [u64add, u64sub, U64]
  · simp only [GetNetworkRates]
    norm_num [u64add, u64sub, U64]
  · simp only [collectSnapshot]
    norm_num [u64add, u64sub, U64, appendBounded, historyCollectorInit]

/-- C9 (counterexample): a refresh of the network cache entry — a
`GetCachedNetwork` call that misses (nil cached slice) and stores a fresh
provider snapshot — does not advance the rate calculator's last-observed
counter state: `lastNetworkBytes` is left exactly as it was (5, 7, t=2),
not moved to the fresh totals (1000, 2000) at the refresh instant 100. -/
theorem network_refresh_baseline_cex :
    (GetCachedNetwork
        { cpuCache := none, cpuCacheTime := 0, memoryCache := none, memoryCacheTime := 0,
          diskCache := none, diskCacheTime := 0, networkCache := none, networkCacheTime := 0,
          lastNetworkBytes := ⟨5, 7, 2⟩, directoriesCache := none, directoriesCacheTime := 0,
          directoriesCacheTTL := 30, ttl := 1 } 100
        (Except.ok [⟨"eth0", 1000, 2000, 0, 0, 0, 0, 0, 0, 0, 0⟩])).providerCalls = 1 ∧
    (GetCachedNetwork
        { cpuCache := none, cpuCacheTime := 0, memoryCache := none, memoryCacheTime := 0,
          diskCache := none, diskCacheTime := 0, networkCache := none, networkCacheTime := 0,
          lastNetworkBytes := ⟨5, 7, 2⟩, directoriesCache := none, directoriesCacheTime := 0,
          directoriesCacheTTL := 30, ttl := 1 } 100
        (Except.ok [⟨"eth0", 1000, 2000, 0, 0, 0, 0, 0, 0, 0, 0⟩])).cache.lastNetworkBytes =
      ⟨5, 7, 2⟩ ∧
    (⟨5, 7, 2⟩ : LastNetworkBytes) ≠ ⟨1000, 2000, 100⟩ := by
  refine ⟨rfl, rfl, by decide⟩

/-- C5 (counterexample): the history window filter is strict, not
inclusive. A buffered CPU sample with timestamp exactly `now - duration`
(here 80 = 100 - 20, so its timestamp is ≥ `now - duration`) is not
returned by `GetHistoricalData`. -/
theorem history_window_boundary_cex :
    ((80 : ℚ) ≥ 100 - 20) ∧
    GetHistoricalData { historyCollectorInit 0 with cpuHistory := [⟨80, 50, []⟩] }
        "cpu" 20 100 = some (HistoricalData.cpu []) := by
  refine ⟨by norm_num, ?_⟩
  simp only [GetHistoricalData]
  norm_num [historyCollectorInit]

/-- C8 (code bug evaluation): in the `GET /dashboard` composite fetch a
single failed metric kind does abort the others — the handler discards the
error and dereferences the nil snapshot pointer, so with only the CPU (or
memory, or disk) fetch failed no response is produced at all, even though
every other kind succeeded. A failed network fetch (nil slice) is, by
contrast, tolerated. -/
theorem dashboard_partial_failure_panic :
    GetDashboard none (some ⟨16, 8, 8, 50⟩) (some ⟨"/", 100, 40, 60, 40, "ext4"⟩)
        [⟨"eth0", 1000, 2000, 10, 20, 0, 0, 0, 0, 0, 0⟩] [] 0 0 ⟨[], [], [], []⟩ 1 2 [] [] 99 =
      none ∧
    GetDashboard (some ⟨25, [10, 40], 2⟩) none (some ⟨"/", 100, 40, 60, 40, "ext4"⟩)
        [⟨"eth0", 1000, 2000, 10, 20, 0, 0, 0, 0, 0, 0⟩] [] 0 0 ⟨[], [], [], []⟩ 1 2 [] [] 99 =
      none ∧
    GetDashboard (some ⟨25, [10, 40], 2⟩) (some ⟨16, 8, 8, 50⟩) none
        [⟨"eth0", 1000, 2000, 10, 20, 0, 0, 0, 0, 0, 0⟩] [] 0 0 ⟨[], [], [], []⟩ 1 2 [] [] 99 =
      none ∧
    (GetDashboard (some ⟨25, [10, 40], 2⟩) (some ⟨16, 8, 8, 50⟩)
        (some ⟨"/", 100, 40, 60, 40, "ext4"⟩) [] [] 0 0 ⟨[], [], [], []⟩ 0 0 [] [] 99).isSome =
      true := by
  refine ⟨rfl, rfl, rfl, rfl⟩

/-- C1: read-through cache freshness for every metric kind (CPU, memory,
disk, network). If a cached entry exists (non-nil) and its age
`now - cacheTime` is below the configured TTL, the getter returns the
identical stored snapshot, leaves the cache unchanged and makes no
provider call. Otherwise it makes exactly one provider call, and on
success stores the result with the current timestamp and returns it. -/
theorem cache_read_through_freshness (s : MetricsCache) (now : ℚ) :
    (∀ (c : CPUStatus) (p : Except String CPUStatus),
        s.cpuCache = some c → now - s.cpuCacheTime < s.ttl →
          GetCachedCPU s now p = ⟨Except.ok c, s, 0⟩) ∧
    (∀ p : Except String CPUStatus,
        (s.cpuCache = none ∨ ¬ now - s.cpuCacheTime < s.ttl) →
          (GetCachedCPU s now p).providerCalls = 1 ∧
          ∀ v : CPUStatus, p = Except.ok v →
            GetCachedCPU s now p =
              ⟨Except.ok v, { s with cpuCache := some v, cpuCacheTime := now }, 1⟩) ∧
    (∀ (m : MemoryStatus) (p : Except String MemoryStatus),
        s.memoryCache = some m → now - s.memoryCacheTime < s.ttl →
          GetCachedMemory s now p = ⟨Except.ok m, s, 0⟩) ∧
    (∀ p : Except String MemoryStatus,
        (s.memoryCache = none ∨ ¬ now - s.memoryCacheTime < s.ttl) →
          (GetCachedMemory s now p).providerCalls = 1 ∧
          ∀ v : MemoryStatus, p = Except.ok v →
            GetCachedMemory s now p =
              ⟨Except.ok v, { s with memoryCache := some v, memoryCacheTime := now }, 1⟩) ∧
    (∀ (d : DiskStatus) (p : Except String DiskStatus),
        s.diskCache = some d → now - s.diskCacheTime < s.ttl →
          GetCachedDisk s now p = ⟨Except.ok d, s, 0⟩) ∧
    (∀ p : Except String DiskStatus,
        (s.diskCache = none ∨ ¬ now - s.diskCacheTime < s.ttl) →
          (GetCachedDisk s now p).providerCalls = 1 ∧
          ∀ v : DiskStatus, p = Except.ok v →
            GetCachedDisk s now p =
              ⟨Except.ok v, { s with diskCache := some v, diskCacheTime := now }, 1⟩) ∧
    (∀ (n : List NetworkStatus) (p : Except String (List NetworkStatus)),
        s.networkCache = some n → now - s.networkCacheTime < s.ttl →
          GetCachedNetwork s now p = ⟨Except.ok n, s, 0⟩) ∧
    (∀ p : Except String (List NetworkStatus),
        (s.networkCache = none ∨ ¬ now - s.networkCacheTime < s.ttl) →
          (GetCachedNetwork s now p).providerCalls = 1 ∧
          ∀ v : List NetworkStatus, p = Except.ok v →
            GetCachedNetwork s now p =
              ⟨Except.ok v, { s with networkCache := some v, networkCacheTime := now }, 1⟩) := by
  refine ⟨?_, ?_, ?_, ?_, ?_, ?_, ?_, ?_⟩
  · intro c p hc hv
    have hb : s.isCacheValid now s.cpuCacheTime = true := by
      simp [MetricsCache.isCacheValid, hv]
    simp [GetCachedCPU, hc, hb]
  · intro p hm
    have hb : ∀ b : Bool, s.isCacheValid now s.cpuCacheTime = b →
        (GetCachedCPU s now p).providerCalls = 1 ∧
        ∀ v : CPUStatus, p = Except.ok v →
          GetCachedCPU s now p =
            ⟨Except.ok v, { s with cpuCache := some v, cpuCacheTime := now }, 1⟩ := by
      intro b hbv
      rcases hm with hnone | hv
      · cases b <;> cases p <;>
          simp_all [GetCachedCPU]
      · have : b = false := by
          cases b
          · rfl
          · exact absurd (by simpa [MetricsCache.isCacheValid] using hbv) hv
        subst this
        cases hc : s.cpuCache <;> cases p <;> simp_all [GetCachedCPU]
    exact hb _ rfl
  · intro m p hc hv
    have hb : s.isCacheValid now s.memoryCacheTime = true := by
      simp [MetricsCache.isCacheValid, hv]
    simp [GetCachedMemory, hc, hb]
  · intro p hm
    have hb : ∀ b : Bool, s.isCacheValid now s.memoryCacheTime = b →
        (GetCachedMemory s now p).providerCalls = 1 ∧
        ∀ v : MemoryStatus, p = Except.ok v →
          GetCachedMemory s now p =
            ⟨Except.ok v, { s with memoryCache := some v, memoryCacheTime := now }, 1⟩ := by
      intro b hbv
      rcases hm with hnone | hv
      · cases b <;> cases p <;>
          simp_all [GetCachedMemory]
      · have : b = false := by
          cases b
          · rfl
          · exact absurd (by simpa [MetricsCache.isCacheValid] using hbv) hv
        subst this
        cases hc : s.memoryCache <;> cases p <;> simp_all [GetCachedMemory]
    exact hb _ rfl
  · intro d p hc hv
    have hb : s.isCacheValid now s.diskCacheTime = true := by
      simp [MetricsCache.isCacheValid, hv]
    simp [GetCachedDisk, hc, hb]
  · intro p hm
    have hb : ∀ b : Bool, s.isCacheValid now s.diskCacheTime = b →
        (GetCachedDisk s now p).providerCalls = 1 ∧
        ∀ v : DiskStatus, p = Except.ok v →
          GetCachedDisk s now p =
            ⟨Except.ok v, { s with diskCache := some v, diskCacheTime := now }, 1⟩ := by
      intro b hbv
      rcases hm with hnone | hv
      · cases b <;> cases p <;>
          simp_all [GetCachedDisk]
      · have : b = false := by
          cases b
          · rfl
          · exact absurd (by simpa [MetricsCache.isCacheValid] using hbv) hv
        subst this
        cases hc : s.diskCache <;> cases p <;> simp_all [GetCachedDisk]
    exact hb _ rfl
  · intro n p hc hv
    have hb : s.isCacheValid now s.networkCacheTime = true := by
      simp [MetricsCache.isCacheValid, hv]
    simp [GetCachedNetwork, hc, hb]
  · intro p hm
    have hb : ∀ b : Bool, s.isCacheValid now s.networkCacheTime = b →
        (GetCachedNetwork s now p).providerCalls = 1 ∧
        ∀ v : List NetworkStatus, p = Except.ok v →
          GetCachedNetwork s now p =
            ⟨Except.ok v, { s with networkCache := some v, networkCacheTime := now }, 1⟩ := by
      intro b hbv
      rcases hm with hnone | hv
      · cases b <;> cases p <;>
          simp_all [GetCachedNetwork]
      · have : b = false := by
          cases b
          · rfl
          · exact absurd (by simpa [MetricsCache.isCacheValid] using hbv) hv
        subst this
        cases hc : s.networkCache <;> cases p <;> simp_all [GetCachedNetwork]
    exact hb _ rfl

lemma appendBounded_length_le {α : Type} (l : List α) (x : α) (N : ℕ) (h : l.length ≤ N) :
    (appendBounded l x N).length ≤ N := by
  unfold appendBounded
  split <;> simp_all

lemma appendBounded_of_lt {α : Type} (l : List α) (x : α) (N : ℕ) (h : l.length < N) :
    appendBounded l x N = l ++ [x] := by
  unfold appendBounded
  rw [if_neg (by simp; omega)]

lemma appendBounded_of_full {α : Type} (l : List α) (x : α) (N : ℕ) (hN : 0 < N)
    (h : l.length = N) : appendBounded l x N = l.drop 1 ++ [x] := by
  unfold appendBounded
  rw [if_pos (by simp [h])]
  cases l with
  | nil => simp at h; omega
  | cons a t => simp

lemma appendBounded_foldl {α : Type} (N : ℕ) (hN : 0 < N) :
    ∀ (ss acc : List α), acc.length ≤ N →
      ss.foldl (fun a x => appendBounded a x N) acc =
        (acc ++ ss).drop (acc.length + ss.length - N) := by
  intro ss
  induction ss with
  | nil =>
    intro acc h
    simp [Nat.sub_eq_zero_of_le h]
  | cons x rest ih =>
    intro acc h
    rw [List.foldl_cons]
    rcases lt_or_eq_of_le h with hlt | heq
    · rw [appendBounded_of_lt _ _ _ hlt]
      rw [ih _ (by simp; omega)]
      have e1 : (acc ++ [x]) ++ rest = acc ++ x :: rest := by simp
      have e2 : (acc ++ [x]).length + rest.length - N =
          acc.length + (x :: rest).length - N := by simp; omega
      rw [e1, e2]
    · rw [appendBounded_of_full _ _ _ hN heq]
      rw [ih _ (by simp [List.length_drop, heq]; omega)]
      have hd : (acc.drop 1 ++ [x]) ++ rest = (acc ++ x :: rest).drop 1 := by
        rw [List.append_assoc,
          List.drop_append_of_le_length (by omega : 1 ≤ acc.length)]
        simp
      rw [hd, List.drop_drop]
      congr 1
      simp [List.length_drop]
      omega

lemma collectSnapshot_cpuHistory (hc : HistoryCollector) (now : ℚ)
    (cpu : Except String CPUStatus) (memory : Except String MemoryStatus)
    (disk : Except String DiskStatus) (network : Except String (List NetworkStatus)) :
    (collectSnapshot hc now cpu memory disk network).cpuHistory =
      match cpu with
      | Except.ok c =>
          appendBounded hc.cpuHistory ⟨now, c.UsagePercent, c.PerCore⟩ hc.maxDataPoints
      | Except.error _ => hc.cpuHistory := by
  rcases cpu with _ | c <;> rcases memory with _ | m <;> rcases disk with _ | d <;>
    rcases network with _ | n <;> simp [collectSnapshot] <;> (try split) <;> rfl

lemma collectSnapshot_memoryHistory (hc : HistoryCollector) (now : ℚ)
    (cpu : Except String CPUStatus) (memory : Except String MemoryStatus)
    (disk : Except String DiskStatus) (network : Except String (List NetworkStatus)) :
    (collectSnapshot hc now cpu memory disk network).memoryHistory =
      match memory with
      | Except.ok m =>
          appendBounded hc.memoryHistory ⟨now, m.UsedGB, m.AvailableGB, m.UsagePercent⟩
            hc.maxDataPoints
      | Except.error _ => hc.memoryHistory := by
  rcases cpu with _ | c <;> rcases memory with _ | m <;> rcases disk with _ | d <;>
    rcases network with _ | n <;> simp [collectSnapshot] <;> (try split) <;> rfl

lemma collectSnapshot_diskHistory (hc : HistoryCollector) (now : ℚ)
    (cpu : Except String CPUStatus) (memory : Except String MemoryStatus)
    (disk : Except String DiskStatus) (network : Except String (List NetworkStatus)) :
    (collectSnapshot hc now cpu memory disk network).diskHistory =
      match disk with
      | Except.ok d =>
          appendBounded hc.diskHistory ⟨now, d.UsedGB, d.TotalGB, d.UsagePercent⟩
            hc.maxDataPoints
      | Except.error _ => hc.diskHistory := by
  rcases cpu with _ | c <;> rcases memory with _ | m <;> rcases disk with _ | d <;>
    rcases network with _ | n <;> simp [collectSnapshot] <;> (try split) <;> rfl

lemma collectSnapshot_networkHistory_len (hc : HistoryCollector) (now : ℚ)
    (cpu : Except String CPUStatus) (memory : Except String MemoryStatus)
    (disk : Except String DiskStatus) (network : Except String (List NetworkStatus))
    (h : hc.networkHistory.length ≤ hc.maxDataPoints) :
    (collectSnapshot hc now cpu memory disk network).networkHistory.length ≤
      hc.maxDataPoints := by
  rcases cpu with _ | c <;> rcases memory with _ | m <;> rcases disk with _ | d <;>
    rcases network with _ | n <;> simp [collectSnapshot] <;> (try split) <;>
    first
      | exact h
      | exact appendBounded_length_le _ _ _ h

/-- C4: history ring buffer bound and FIFO eviction. The collector's
capacity is `maxDataPoints = 60`; the append step keeps every buffer at
most 60 long; an append to a full buffer drops exactly the oldest sample
from the front; appending any sequence of samples into an empty buffer
retains exactly the most recent at most 60 of them in append order (the
suffix of the appended sequence); and `collectSnapshot` preserves the
length bound of all four buffers. -/
theorem history_ring_buffer_bound_fifo :
    (∀ t : ℚ, (historyCollectorInit t).maxDataPoints = 60) ∧
    (∀ (l : List CPUHistory) (x : CPUHistory), l.length ≤ 60 →
        (appendBounded l x 60).length ≤ 60) ∧
    (∀ (l : List CPUHistory) (x : CPUHistory), l.length = 60 →
        appendBounded l x 60 = l.drop 1 ++ [x]) ∧
    (∀ ss : List CPUHistory,
        ss.foldl (fun a x => appendBounded a x 60) [] = ss.drop (ss.length - 60)) ∧
    (∀ (hc : HistoryCollector) (now : ℚ) (cpu : Except String CPUStatus)
        (memory : Except String MemoryStatus) (disk : Except String DiskStatus)
        (network : Except String (List NetworkStatus)),
        hc.cpuHistory.length ≤ hc.maxDataPoints →
        hc.memoryHistory.length ≤ hc.maxDataPoints →
        hc.diskHistory.length ≤ hc.maxDataPoints →
        hc.networkHistory.length ≤ hc.maxDataPoints →
          (collectSnapshot hc now cpu memory disk network).cpuHistory.length ≤
              hc.maxDataPoints ∧
            (collectSnapshot hc now cpu memory disk network).memoryHistory.length ≤
              hc.maxDataPoints ∧
            (collectSnapshot hc now cpu memory disk network).diskHistory.length ≤
              hc.maxDataPoints ∧
            (collectSnapshot hc now cpu memory disk network).networkHistory.length ≤
              hc.maxDataPoints) := by
  refine ⟨fun t => rfl, fun l x h => appendBounded_length_le l x 60 h,
    fun l x h => appendBounded_of_full l x 60 (by norm_num) h, ?_, ?_⟩
  · intro ss
    have := appendBounded_foldl 60 (by norm_num) ss ([] : List CPUHistory) (by simp)
    simpa using this
  · intro hc now cpu memory disk network h1 h2 h3 h4
    refine ⟨?_, ?_, ?_, collectSnapshot_networkHistory_len hc now cpu memory disk network h4⟩
    · rw [collectSnapshot_cpuHistory]
      cases cpu with
      | error e => exact h1
      | ok c => exact appendBounded_length_le _ _ _ h1
    · rw [collectSnapshot_memoryHistory]
      cases memory with
      | error e => exact h2
      | ok m => exact appendBounded_length_le _ _ _ h2
    · rw [collectSnapshot_diskHistory]
      cases disk with
      | error e => exact h3
      | ok d => exact appendBounded_length_le _ _ _ h3

/-- Witness for C1: a fresh CPU hit (age 1/2 < TTL 1) returns the stored
snapshot with zero provider calls even though the provider would fail, and
a network miss (nil cached slice) performs one provider call and stores
the fresh snapshot with the current timestamp. -/
theorem cache_read_through_freshness_witness :
    GetCachedCPU
        { cpuCache := some ⟨25, [10, 40], 2⟩, cpuCacheTime := 10, memoryCache := none,
          memoryCacheTime := 0, diskCache := none, diskCacheTime := 0, networkCache := none,
          networkCacheTime := 0, lastNetworkBytes := ⟨0, 0, 0⟩, directoriesCache := none,
          directoriesCacheTime := 0, directoriesCacheTTL := 30, ttl := 1 } (21 / 2)
        (Except.error "provider down") =
      ⟨Except.ok ⟨25, [10, 40], 2⟩,
        { cpuCache := some ⟨25, [10, 40], 2⟩, cpuCacheTime := 10, memoryCache := none,
          memoryCacheTime := 0, diskCache := none, diskCacheTime := 0, networkCache := none,
          networkCacheTime := 0, lastNetworkBytes := ⟨0, 0, 0⟩, directoriesCache := none,
          directoriesCacheTime := 0, directoriesCacheTTL := 30, ttl := 1 }, 0⟩ ∧
    GetCachedNetwork
        { cpuCache := none, cpuCacheTime := 0, memoryCache := none, memoryCacheTime := 0,
          diskCache := none, diskCacheTime := 0, networkCache := none, networkCacheTime := 0,
          lastNetworkBytes := ⟨0, 0, 0⟩, directoriesCache := none, directoriesCacheTime := 0,
          directoriesCacheTTL := 30, ttl := 1 } 100
        (Except.ok [⟨"eth0", 7, 9, 0, 0, 0, 0, 0, 0, 0, 0⟩]) =
      ⟨Except.ok [⟨"eth0", 7, 9, 0, 0, 0, 0, 0, 0, 0, 0⟩],
        { cpuCache := none, cpuCacheTime := 0, memoryCache := none, memoryCacheTime := 0,
          diskCache := none, diskCacheTime := 0,
          networkCache := some [⟨"eth0", 7, 9, 0, 0, 0, 0, 0, 0, 0, 0⟩],
          networkCacheTime := 100, lastNetworkBytes := ⟨0, 0, 0⟩, directoriesCache := none,
          directoriesCacheTime := 0, directoriesCacheTTL := 30, ttl := 1 }, 1⟩ := by
  constructor
  · exact (cache_read_through_freshness _ _).1 _ _ rfl (by norm_num)
  · exact ((cache_read_through_freshness _ _).2.2.2.2.2.2.2 _ (Or.inl rfl)).2 _ rfl

/-- Witness for C4: a full 60-sample buffer stays at 60 after an append and
drops exactly its oldest sample, and `collectSnapshot` on the initial
(empty) collector keeps the CPU buffer within bounds. -/
theorem history_ring_buffer_bound_fifo_witness :
    (appendBounded (List.replicate 60 (⟨0, 0, []⟩ : CPUHistory)) ⟨1, 2, []⟩ 60).length ≤ 60 ∧
    appendBounded (List.replicate 60 (⟨0, 0, []⟩ : CPUHistory)) ⟨1, 2, []⟩ 60 =
      (List.replicate 60 (⟨0, 0, []⟩ : CPUHistory)).drop 1 ++ [⟨1, 2, []⟩] ∧
    (collectSnapshot (historyCollectorInit 0) 1 (Except.ok ⟨25, [10, 40], 2⟩)
        (Except.error "e") (Except.error "e") (Except.error "e")).cpuHistory.length ≤
      (historyCollectorInit 0).maxDataPoints := by
  refine ⟨?_, ?_, ?_⟩
  · exact history_ring_buffer_bound_fifo.2.1 _ _ (by simp)
  · exact history_ring_buffer_bound_fifo.2.2.1 _ _ (by simp)
  · exact (history_ring_buffer_bound_fifo.2.2.2.2 (historyCollectorInit 0) 1
      (Except.ok ⟨25, [10, 40], 2⟩) (Except.error "e") (Except.error "e") (Except.error "e")
      (by simp [historyCollectorInit]) (by simp [historyCollectorInit])
      (by simp [historyCollectorInit]) (by simp [historyCollectorInit])).1

/-- C9 (amended): a refresh of the network cache entry — a miss of
`GetCachedNetwork` that stores the fresh provider snapshot — sets exactly
`networkCache` and `networkCacheTime` and leaves every other cache field,
including the rate calculator's `lastNetworkBytes` baseline, unchanged;
the baseline is advanced only by `GetNetworkRates`. -/
theorem network_refresh_preserves_rate_baseline (s : MetricsCache) (now : ℚ)
    (v : List NetworkStatus)
    (hm : s.networkCache = none ∨ ¬ now - s.networkCacheTime < s.ttl) :
    GetCachedNetwork s now (Except.ok v) =
      ⟨Except.ok v, { s with networkCache := some v, networkCacheTime := now }, 1⟩ ∧
    (GetCachedNetwork s now (Except.ok v)).cache.lastNetworkBytes = s.lastNetworkBytes := by
  have key : GetCachedNetwork s now (Except.ok v) =
      ⟨Except.ok v, { s with networkCache := some v, networkCacheTime := now }, 1⟩ := by
    rcases hm with hnone | hv
    · cases hb : s.isCacheValid now s.networkCacheTime <;> simp_all [GetCachedNetwork]
    · have hb : s.isCacheValid now s.networkCacheTime = false := by
        simp [MetricsCache.isCacheValid, hv]
      cases hc : s.networkCache <;> simp_all [GetCachedNetwork]
  exact ⟨key, by rw [key]⟩

/-- Witness for C9 (amended): a concrete network refresh (nil cached
slice, provider totals 1000/2000, instant 100) stores the snapshot and its
timestamp and leaves `lastNetworkBytes = (5, 7, 2)` untouched. -/
theorem network_refresh_preserves_rate_baseline_witness :
    GetCachedNetwork
        { cpuCache := none, cpuCacheTime := 0, memoryCache := none, memoryCacheTime := 0,
          diskCache := none, diskCacheTime := 0, networkCache := none, networkCacheTime := 0,
          lastNetworkBytes := ⟨5, 7, 2⟩, directoriesCache := none, directoriesCacheTime := 0,
          directoriesCacheTTL := 30, ttl := 1 } 100
        (Except.ok [⟨"eth0", 1000, 2000, 0, 0, 0, 0, 0, 0, 0, 0⟩]) =
      ⟨Except.ok [⟨"eth0", 1000, 2000, 0, 0, 0, 0, 0, 0, 0, 0⟩],
        { cpuCache := none, cpuCacheTime := 0, memoryCache := none, memoryCacheTime := 0,
          diskCache := none, diskCacheTime := 0,
          networkCache := some [⟨"eth0", 1000, 2000, 0, 0, 0, 0, 0, 0, 0, 0⟩],
          networkCacheTime := 100, lastNetworkBytes := ⟨5, 7, 2⟩, directoriesCache := none,
          directoriesCacheTime := 0, directoriesCacheTTL := 30, ttl := 1 }, 1⟩ :=
  (network_refresh_preserves_rate_baseline _ 100 _ (Or.inl rfl)).1

/-- C5 (amended): for every known metric kind the history query returns
exactly the buffered samples whose timestamp is strictly greater than
`now - duration`, in buffer (oldest-first) order; an unknown kind yields
`none` from the service and a 400 "invalid metric" from the handler,
distinct from a valid kind with no data in the window, which is a 200 with
an empty list; an unparsable duration is a 400 "invalid duration format". -/
theorem history_window_filter (hc : HistoryCollector) (duration now : ℚ) :
    (∃ l, GetHistoricalData hc "cpu" duration now = some (HistoricalData.cpu l) ∧
        l.Sublist hc.cpuHistory ∧
        ∀ e : CPUHistory, e ∈ l ↔ e ∈ hc.cpuHistory ∧ e.Timestamp > now - duration) ∧
    (∃ l, GetHistoricalData hc "memory" duration now = some (HistoricalData.memory l) ∧
        l.Sublist hc.memoryHistory ∧
        ∀ e : MemoryHistory, e ∈ l ↔ e ∈ hc.memoryHistory ∧ e.Timestamp > now - duration) ∧
    (∃ l, GetHistoricalData hc "disk" duration now = some (HistoricalData.disk l) ∧
        l.Sublist hc.diskHistory ∧
        ∀ e : DiskHistory, e ∈ l ↔ e ∈ hc.diskHistory ∧ e.Timestamp > now - duration) ∧
    (∃ l, GetHistoricalData hc "network" duration now = some (HistoricalData.network l) ∧
        l.Sublist hc.networkHistory ∧
        ∀ e : NetworkHistory, e ∈ l ↔ e ∈ hc.networkHistory ∧ e.Timestamp > now - duration) ∧
    (∀ metric : String, metric ≠ "cpu" → metric ≠ "memory" → metric ≠ "disk" →
        metric ≠ "network" →
          GetHistoricalData hc metric duration now = none ∧
          ∀ durationStr : String,
            GetMetricHistory hc metric durationStr (some duration) now =
              HistoryResponse.badRequest "invalid metric") ∧
    (∀ durationStr : String, ∃ data,
        GetMetricHistory hc "cpu" durationStr (some duration) now =
          HistoryResponse.ok "cpu" durationStr data) ∧
    (∀ metric durationStr : String,
        GetMetricHistory hc metric durationStr none now =
          HistoryResponse.badRequest "invalid duration format") := by
  refine ⟨⟨_, rfl, List.filter_sublist _, ?_⟩, ⟨_, rfl, List.filter_sublist _, ?_⟩,
    ⟨_, rfl, List.filter_sublist _, ?_⟩, ⟨_, rfl, List.filter_sublist _, ?_⟩, ?_, ?_, ?_⟩
  · intro e
    simp [List.mem_filter]
  · intro e
    simp [List.mem_filter]
  · intro e
    simp [List.mem_filter]
  · intro e
    simp [List.mem_filter]
  · intro metric h1 h2 h3 h4
    have hserv : GetHistoricalData hc metric duration now = none := by
      unfold GetHistoricalData
      split <;> simp_all
    exact ⟨hserv, fun durationStr => by simp [GetMetricHistory, hserv]⟩
  · intro durationStr
    exact ⟨_, rfl⟩
  · intro metric durationStr
    rfl

/-- Witness for C5 (amended): on a one-sample CPU buffer at t = 90 with
window (80, 100], the sample is returned; the unknown metric "bogus" is a
400 "invalid metric" from the handler while the valid kind "cpu" with an
empty buffer is a 200 with an empty list. -/
theorem history_window_filter_witness :
    (∃ l, GetHistoricalData { historyCollectorInit 0 with cpuHistory := [⟨90, 50, []⟩] }
          "cpu" 20 100 = some (HistoricalData.cpu l) ∧
        l.Sublist [⟨90, 50, []⟩] ∧
        ∀ e : CPUHistory, e ∈ l ↔
          e ∈ ({ historyCollectorInit 0 with
            cpuHistory := [⟨90, 50, []⟩] } : HistoryCollector).cpuHistory ∧
          e.Timestamp > 100 - 20) ∧
    GetMetricHistory (historyCollectorInit 0) "bogus" "20s" (some 20) 100 =
      HistoryResponse.badRequest "invalid metric" ∧
    GetMetricHistory (historyCollectorInit 0) "cpu" "20s" (some 20) 100 =
      HistoryResponse.ok "cpu" "20s" (HistoricalData.cpu []) := by
  refine ⟨(history_window_filter _ 20 100).1, ?_, ?_⟩
  · exact ((history_window_filter (historyCollectorInit 0) 20 100).2.2.2.2.1 "bogus"
      (by decide) (by decide) (by decide) (by decide)).2 "20s"
  · rfl

/-- C7: hub broadcast fan-out is per-client and non-blocking. The fan-out
preserves the client list; the outcome for the client at any position
depends only on that client's own queue — the message is appended when the
queue is below its capacity and dropped for that client otherwise — so a
full queue on one client never affects delivery to any other; and clients
are created with outbound queue capacity 256. -/
theorem hub_broadcast_isolation (clients : List ClientConnection) (msg : WebSocketMessage)
    (i : ℕ) :
    (broadcastFanout clients msg).length = clients.length ∧
    (broadcastFanout clients msg)[i]? = clients[i]?.map
      (fun c =>
        if c.send.length < c.sendCapacity then { c with send := c.send ++ [msg] } else c) ∧
    ∀ clientID : String, (newClientConnection clientID).sendCapacity = 256 := by
  refine ⟨?_, ?_, fun clientID => rfl⟩
  · induction clients with
    | nil => rfl
    | cons c rest ih => simp [broadcastFanout, ih]
  · induction clients generalizing i with
    | nil => simp [broadcastFanout]
    | cons c rest ih =>
      cases i with
      | zero => simp [broadcastFanout]
      | succ n => simp [broadcastFanout, ih]

end Chowkidar
